import Mathlib

/-!
Shallow embedding of the runtime core in src/src/main.cpp of the
mqtt-rgb-dino repository: the action-envelope construction and
classification (setAction, clearAction), the two subscription callbacks
(getColor, setColor), the status publisher (publishRgbStatus), the worker
loop body (processLongActionsTask), the listener dispatch and its
elapsed-time accounting (processInputTask), and the connection procedure
(mqttConnect).  External collaborators (the MQTT client library, the
ArduinoJson deserializer and the NeoPixel ring driver) are modelled at
their boundary.
-/

namespace MqttRgbDino

/-- Capacity of a subscription's payload buffer. Modelled from the spec:
the constant SUBSCRIPTIONDATALEN comes from the external MQTT client
library header, not from src/; its library value 100 is used. -/
def SUBSCRIPTIONDATALEN : Nat := 100

/-- An (r, g, b) color triple as held by the LED ring driver (each channel
is an 8-bit unsigned value in the source). -/
structure RGB where
  r : Nat
  g : Nat
  b : Nat
deriving DecidableEq

/-- A status message published on the outbound status channel by
publishRgbStatus: the serialized object with keys r, g, b. -/
structure StatusMsg where
  r : Nat
  g : Nat
  b : Nat
deriving DecidableEq

/-- A call made on the external LED-ring driver collaborator. -/
inductive RingCall where
  | setColorCall (r g b : Nat)
  | fadeColorCall (r g b time : Nat)
  | getColorCall
deriving DecidableEq

/-- Modelled from the spec: the outcome of the external ArduinoJson
deserializeJson call on a command payload — either a deserialization error
or a document whose numeric fields r, g, b, time can be read back (an
absent field reads back as 0, matching as on a missing key, so an absent
time is the time-zero case). -/
inductive ParseResult where
  | err
  | ok (r g b time : Nat)
deriving DecidableEq

/-- The two subscription callbacks registered once in setup():
getColor for the get-color subscription and setColor for the set-color
subscription. -/
inductive Handler where
  | getColorH
  | setColorH
deriving DecidableEq

/-- SubscriptionAction_t: the action envelope — a callback pointer (none
models NULL), a fixed-capacity data buffer and a length. -/
structure SubscriptionAction where
  callback : Option Handler
  data : List Nat
  length : Nat
deriving DecidableEq

/-- clearAction: NULL callback, buffer memset to zero, zero length. -/
def clearAction : SubscriptionAction :=
  { callback := none, data := List.replicate SUBSCRIPTIONDATALEN 0, length := 0 }

/-- A subscription identity: one of the two subscriptions registered in
setup() (query is getColorSub, command is setColorSub) or any other
identity. -/
inductive SubId where
  | query
  | command
  | other (n : Nat)
deriving DecidableEq

/-- The fixed identity-to-callback mapping established in setup():
getColorSub.setCallback(getColor) and setColorSub.setCallback(setColor).
Modelled from the spec for identities outside src/: a subscription whose
callback was never registered has a NULL callback_buffer. -/
def callbackOf : SubId → Option Handler
  | SubId.query => some Handler.getColorH
  | SubId.command => some Handler.setColorH
  | SubId.other _ => none

/-- An inbound subscription event: the identity that fired and the payload
bytes. Modelled from the spec at the transport boundary: the library
stores the payload bytes in subscription->lastread followed by a zero
terminator, and their count in subscription->datalen. -/
structure MqttEvent where
  sub : SubId
  payload : List Nat
deriving DecidableEq

/-- The buffer produced by strncpy of the payload (as NUL-terminated text)
into a freshly zeroed buffer of SUBSCRIPTIONDATALEN bytes with count
SUBSCRIPTIONDATALEN - 1: bytes are copied up to the first zero byte and to
at most SUBSCRIPTIONDATALEN - 1 of them; the rest of the buffer stays
zero. -/
def strncpyData (payload : List Nat) : List Nat :=
  let copied := (payload.takeWhile (fun b => b != 0)).take (SUBSCRIPTIONDATALEN - 1)
  copied ++ List.replicate (SUBSCRIPTIONDATALEN - copied.length) 0

/-- setAction: clear the envelope; then, when the subscription is non-NULL
and has a registered callback, set the envelope's callback, strncpy the
payload into its buffer and set its length from the subscription's
datalen. The source makes no check of the length against the buffer
capacity here. -/
def setAction (e : MqttEvent) : SubscriptionAction :=
  match callbackOf e.sub with
  | none => clearAction
  | some cb =>
      { callback := some cb, data := strncpyData e.payload, length := e.payload.length }

/-- publishRgbStatus: read the ring's current color with ring.getColor and
publish one serialized status object with keys r, g, b on the status
channel. Returns the driver calls made and the messages published. -/
def publishRgbStatus (st : RGB) : List RingCall × List StatusMsg :=
  ([RingCall.getColorCall], [{ r := st.r, g := st.g, b := st.b }])

/-- The observable outcome of running one subscription callback: the
driver calls it made in order, the status messages it published, and the
ring color afterwards. -/
structure HandlerOut where
  ringCalls : List RingCall
  publishes : List StatusMsg
  ringState : RGB
deriving DecidableEq

/-- getColor: the query callback. If the length exceeds
SUBSCRIPTIONDATALEN it returns at once; otherwise it calls
publishRgbStatus. The source takes no lock in this callback, so the
lockFree argument (whether a zero-timeout take of ringMutex would succeed)
is never consulted. -/
def getColor (data : List Nat) (len : Nat) (lockFree : Bool) (st : RGB) : HandlerOut :=
  if SUBSCRIPTIONDATALEN < len then { ringCalls := [], publishes := [], ringState := st }
  else
    let p := publishRgbStatus st
    { ringCalls := p.1, publishes := p.2, ringState := st }

/-- setColor: the command callback. Returns at once when the length
exceeds SUBSCRIPTIONDATALEN or when JSON deserialization fails. Otherwise
it reads r, g, b as uint8 and time as uint16 and, when the zero-timeout
take of ringMutex succeeds, either requests a fade (time nonzero) or an
immediate set; on lock contention the mutation is skipped. Every
surviving path then calls publishRgbStatus once. Modelled from the spec
at the driver boundary: the ring's readable color after a set or fade
request is the requested target (transition progress lives inside the
external driver). -/
def setColor (parse : List Nat → ParseResult) (data : List Nat) (len : Nat)
    (lockFree : Bool) (st : RGB) : HandlerOut :=
  if SUBSCRIPTIONDATALEN < len then { ringCalls := [], publishes := [], ringState := st }
  else
    match parse data with
    | ParseResult.err => { ringCalls := [], publishes := [], ringState := st }
    | ParseResult.ok r0 g0 b0 t0 =>
        let r := r0 % 256
        let g := g0 % 256
        let b := b0 % 256
        let time := t0 % 65536
        let step : List RingCall × RGB :=
          if lockFree then
            if time ≠ 0 then ([RingCall.fadeColorCall r g b time], { r := r, g := g, b := b })
            else ([RingCall.setColorCall r g b], { r := r, g := g, b := b })
          else ([], st)
        let p := publishRgbStatus step.2
        { ringCalls := step.1 ++ p.1, publishes := p.2, ringState := step.2 }

/-- Dispatch of action.callback(action.data, action.length) by a worker.
Enqueued actions always carry a callback (the listener enqueues only when
the callback resolved); a NULL callback is modelled as a no-op branch. -/
def runCallback (parse : List Nat → ParseResult) (a : SubscriptionAction)
    (lockFree : Bool) (st : RGB) : HandlerOut :=
  match a.callback with
  | some Handler.getColorH => getColor a.data a.length lockFree st
  | some Handler.setColorH => setColor parse a.data a.length lockFree st
  | none => { ringCalls := [], publishes := [], ringState := st }

/-- One iteration of the processLongActionsTask loop body: a zero-timeout
receive from the long actions queue; when an action is present its
callback runs and the envelope is cleared; the task then sleeps and
proceeds to its next cycle. Returns the remaining queue, the ring color
and the messages published during this cycle. -/
def processLongActionsStep (parse : List Nat → ParseResult)
    (q : List SubscriptionAction) (lockFree : Bool) (st : RGB) :
    List SubscriptionAction × RGB × List StatusMsg :=
  match q with
  | [] => ([], st, [])
  | a :: rest =>
      let out := runCallback parse a lockFree st
      (rest, out.ringState, out.publishes)

/-- The two dispatch queues created in setup(): shortActionsQueue with
capacity 2 and longActionsQueue with capacity 4. -/
structure Queues where
  shortQ : List SubscriptionAction
  longQ : List SubscriptionAction
deriving DecidableEq

/-- xQueueSend with zero timeout: append when below capacity; otherwise
the send fails immediately and the queue is unchanged. -/
def xQueueSend (q : List SubscriptionAction) (cap : Nat) (a : SubscriptionAction) :
    List SubscriptionAction :=
  if q.length < cap then q ++ [a] else q

/-- One classified event inside processInputTask: build the envelope with
setAction; a get-color event whose envelope has a resolved callback goes
to the short queue, a set-color event whose envelope has a resolved
callback goes to the long queue; every other case enqueues nothing. -/
def processInputStep (qs : Queues) (e : MqttEvent) : Queues :=
  let action := setAction e
  match e.sub with
  | SubId.query =>
      if action.callback ≠ none then { qs with shortQ := xQueueSend qs.shortQ 2 action }
      else qs
  | SubId.command =>
      if action.callback ≠ none then { qs with longQ := xQueueSend qs.longQ 4 action }
      else qs
  | SubId.other _ => qs

/-- The externally visible events of mqttConnect in order: worker task
suspends and resumes, connect attempts with their outcome, the 5 second
backoff sleep, the terminal halt loop (while(1)) and the 250 ms settle
sleep. -/
inductive ConnEvent where
  | suspendShort
  | suspendLong
  | connectAttempt (ok : Bool)
  | backoffSleep
  | halt
  | resumeShort
  | resumeLong
  | settleSleep
deriving DecidableEq

/-- The retry loop of mqttConnect: attempt number i succeeds exactly when
outcomes i is true. On a failure: disconnect, sleep the 5 second backoff,
decrement retries, and halt forever when the budget reaches zero,
otherwise retry. Returns the event trace and whether the loop ended in
the halt state. -/
def connectLoop (outcomes : Nat → Bool) (i : Nat) (retries : Nat) :
    List ConnEvent × Bool :=
  if outcomes i then ([ConnEvent.connectAttempt true], false)
  else
    if h : retries - 1 = 0 then
      ([ConnEvent.connectAttempt false, ConnEvent.backoffSleep, ConnEvent.halt], true)
    else
      let rest := connectLoop outcomes (i + 1) (retries - 1)
      (ConnEvent.connectAttempt false :: ConnEvent.backoffSleep :: rest.1, rest.2)
termination_by retries
decreasing_by omega

/-- mqttConnect: a no-op when mqtt.connected() already holds; otherwise
suspend both worker tasks, run the retry loop with an initial budget of 3,
and on success resume both workers and sleep the 250 ms settle interval.
On budget exhaustion the trace ends in the halt loop and nothing further
happens. The boolean result records whether the call halted. -/
def mqttConnect (connected : Bool) (outcomes : Nat → Bool) : List ConnEvent × Bool :=
  if connected then ([], false)
  else
    let r := connectLoop outcomes 0 3
    if r.2 then (ConnEvent.suspendShort :: ConnEvent.suspendLong :: r.1, true)
    else
      (ConnEvent.suspendShort :: ConnEvent.suspendLong ::
        (r.1 ++ [ConnEvent.resumeShort, ConnEvent.resumeLong, ConnEvent.settleSleep]), false)

/-- The modulus of the uint32 arithmetic in the listener's elapsed-time
accounting. -/
def UINT32MOD : Nat := 2 ^ 32

/-- The per-iteration elapsed accounting at the bottom of the polling loop
in processInputTask: endTime is sampled from millis(); when it is below
the recorded startTime, startTime is reset to it; then elapsed is
incremented by the uint32 difference endTime minus startTime. All three
variables are uint32, so the subtraction and the accumulation are taken
modulo 2 to the 32. -/
def elapsedStep (startTime elapsed now : Nat) : Nat × Nat :=
  let startTime' := if now < startTime then now else startTime
  (startTime', (elapsed + (now + UINT32MOD - startTime') % UINT32MOD) % UINT32MOD)

/-- C1 counterexample: an inbound set-color event whose data length (101)
exceeds SUBSCRIPTIONDATALEN (100) still yields a populated envelope — the
callback is set and the length is taken from the event — because setAction
makes no size check; this refutes the claim that construction yields an
empty envelope for oversized events. -/
theorem setAction_oversized_not_empty :
    SUBSCRIPTIONDATALEN < (List.replicate 101 (65 : Nat)).length ∧
    (setAction { sub := SubId.command, payload := List.replicate 101 (65 : Nat) }).callback
      = some Handler.setColorH ∧
    (setAction { sub := SubId.command, payload := List.replicate 101 (65 : Nat) }).length
      = 101 := by
  decide

/-- C1 (amended): envelope construction enforces no size bound — for any
event whose identity has a registered callback the envelope is populated,
with the callback set and the length taken from the event, even when the
length exceeds SUBSCRIPTIONDATALEN; and when the length is at most
SUBSCRIPTIONDATALEN - 1 and the payload bytes are all nonzero, the first
length bytes of the buffer equal the payload exactly. -/
theorem setAction_populates_unbounded (sub : SubId) (payload : List Nat) (cb : Handler)
    (hcb : callbackOf sub = some cb) :
    (setAction { sub := sub, payload := payload }).callback = some cb ∧
    (setAction { sub := sub, payload := payload }).length = payload.length ∧
    (payload.length ≤ SUBSCRIPTIONDATALEN - 1 → (∀ x ∈ payload, x ≠ 0) →
      (setAction { sub := sub, payload := payload }).data.take payload.length = payload) := by
  refine ⟨by simp [setAction, hcb], by simp [setAction, hcb], fun hlen hz => ?_⟩
  simp only [setAction, hcb]
  have htw : payload.takeWhile (fun b => b != 0) = payload :=
    List.takeWhile_eq_self_iff.mpr (fun x hx => by simpa using hz x hx)
  have htk : (payload.takeWhile (fun b => b != 0)).take (SUBSCRIPTIONDATALEN - 1) = payload := by
    rw [htw]
    exact List.take_of_length_le hlen
  simp only [strncpyData, htk]
  exact List.take_left payload _

/-- C1 amended claim applied at a concrete in-bound event. -/
theorem setAction_populates_unbounded_witness :
    (setAction { sub := SubId.command, payload := [10, 20] }).data.take
        ([10, 20] : List Nat).length = [10, 20] :=
  (setAction_populates_unbounded SubId.command [10, 20] Handler.setColorH rfl).2.2
    (by decide) (by decide)

/-- C2: for a well-formed command payload with in-range channels and
duration, under a successful lock take the handler issues exactly one
setColor driver call (and no fadeColor call) when time is zero, and
exactly one fadeColor call (and no setColor call) when time is positive;
the only other driver call is the status read that follows. -/
theorem setColor_fade_vs_set_dispatch (parse : List Nat → ParseResult) (data : List Nat)
    (len r g b t : Nat) (st : RGB)
    (hlen : len ≤ SUBSCRIPTIONDATALEN) (hp : parse data = ParseResult.ok r g b t)
    (hr : r < 256) (hg : g < 256) (hb : b < 256) (ht : t < 65536) :
    (t = 0 →
      (setColor parse data len true st).ringCalls
        = [RingCall.setColorCall r g b, RingCall.getColorCall]) ∧
    (0 < t →
      (setColor parse data len true st).ringCalls
        = [RingCall.fadeColorCall r g b t, RingCall.getColorCall]) := by
  have hlen' : ¬ SUBSCRIPTIONDATALEN < len := not_lt.mpr hlen
  refine ⟨fun h => ?_, fun h => ?_⟩
  · simp [setColor, hlen', hp, publishRgbStatus, h, Nat.mod_eq_of_lt hr,
      Nat.mod_eq_of_lt hg, Nat.mod_eq_of_lt hb]
  · have h0 : t % 65536 ≠ 0 := by
      rw [Nat.mod_eq_of_lt ht]
      omega
    have ht0 : ¬ t = 0 := by omega
    simp [setColor, hlen', hp, publishRgbStatus, h0, ht0, Nat.mod_eq_of_lt hr,
      Nat.mod_eq_of_lt hg, Nat.mod_eq_of_lt hb, Nat.mod_eq_of_lt ht]

/-- C2 applied at the concrete payload r 10, g 20, b 30, time 500. -/
theorem setColor_fade_vs_set_dispatch_witness :
    (setColor (fun _ => ParseResult.ok 10 20 30 500) [] 0 true
        { r := 0, g := 0, b := 0 }).ringCalls
      = [RingCall.fadeColorCall 10 20 30 500, RingCall.getColorCall] :=
  (setColor_fade_vs_set_dispatch (fun _ => ParseResult.ok 10 20 30 500) [] 0 10 20 30 500
    { r := 0, g := 0, b := 0 } (by decide) rfl (by decide) (by decide) (by decide)
    (by decide)).2 (by decide)

/-- C3: every parseable, size-bounded command payload produces exactly one
status publish after the mutation attempt, carrying the ring color as it
stands after that attempt, whether the lock take succeeded or failed. -/
theorem setColor_status_echo_once (parse : List Nat → ParseResult) (data : List Nat)
    (len r g b t : Nat) (lockFree : Bool) (st : RGB)
    (hlen : len ≤ SUBSCRIPTIONDATALEN) (hp : parse data = ParseResult.ok r g b t) :
    (setColor parse data len lockFree st).publishes
      = [{ r := (setColor parse data len lockFree st).ringState.r,
           g := (setColor parse data len lockFree st).ringState.g,
           b := (setColor parse data len lockFree st).ringState.b }] ∧
    (setColor parse data len lockFree st).publishes.length = 1 := by
  have hlen' : ¬ SUBSCRIPTIONDATALEN < len := not_lt.mpr hlen
  cases lockFree <;> by_cases h : t % 65536 = 0 <;>
    simp [setColor, hlen', hp, publishRgbStatus, h]

/-- C3 applied at a concrete command skipped by lock contention. -/
theorem setColor_status_echo_once_witness :
    (setColor (fun _ => ParseResult.ok 1 2 3 0) [] 0 false
      { r := 9, g := 9, b := 9 }).publishes.length = 1 :=
  (setColor_status_echo_once (fun _ => ParseResult.ok 1 2 3 0) [] 0 1 2 3 0 false
    { r := 9, g := 9, b := 9 } (by decide) rfl).2

/-- C4 counterexample: with the lock unavailable (lockFree false), the
query handler still reads the ring (a getColor driver call) and publishes
the current color — the read is not skipped — refuting the claim that the
read happens only under a successful non-blocking lock acquisition. -/
theorem getColor_publishes_without_lock :
    (getColor [] 0 false { r := 1, g := 2, b := 3 }).publishes
      = [{ r := 1, g := 2, b := 3 }] ∧
    (getColor [] 0 false { r := 1, g := 2, b := 3 }).ringCalls
      = [RingCall.getColorCall] := by
  decide

/-- C4 (amended): the query handler ignores its payload and the lock state
entirely — for any size-bounded event it reads the current color with no
lock acquisition (the read is never skipped for contention) and publishes
exactly one status message with the current (r, g, b). -/
theorem getColor_lock_free_read (data : List Nat) (len : Nat) (lockFree : Bool) (st : RGB)
    (hlen : len ≤ SUBSCRIPTIONDATALEN) :
    getColor data len lockFree st = getColor [] len true st ∧
    (getColor data len lockFree st).publishes = [{ r := st.r, g := st.g, b := st.b }] ∧
    (getColor data len lockFree st).ringCalls = [RingCall.getColorCall] ∧
    (getColor data len lockFree st).ringState = st := by
  have hlen' : ¬ SUBSCRIPTIONDATALEN < len := not_lt.mpr hlen
  simp [getColor, hlen', publishRgbStatus]

/-- C4 amended claim applied at a concrete contended query. -/
theorem getColor_lock_free_read_witness :
    (getColor [7] 0 false { r := 4, g := 5, b := 6 }).publishes
      = [{ r := 4, g := 5, b := 6 }] :=
  (getColor_lock_free_read [7] 0 false { r := 4, g := 5, b := 6 } (by decide)).2.1

/-- C5: a command payload whose structured data fails to deserialize makes
no driver call at all (in particular no setColor and no fadeColor), leaves
the ring color unchanged, and the worker cycle that ran it completes
normally: the action is consumed and the loop state for the next cycle is
well defined. -/
theorem setColor_malformed_no_mutation (parse : List Nat → ParseResult) (data : List Nat)
    (len : Nat) (lockFree : Bool) (st : RGB) (rest : List SubscriptionAction)
    (hp : parse data = ParseResult.err) :
    (setColor parse data len lockFree st).ringCalls = [] ∧
    (setColor parse data len lockFree st).ringState = st ∧
    processLongActionsStep parse
      ({ callback := some Handler.setColorH, data := data, length := len } :: rest)
      lockFree st = (rest, st, []) := by
  by_cases h : SUBSCRIPTIONDATALEN < len <;>
    simp [setColor, processLongActionsStep, runCallback, h, hp]

/-- C5 applied at a concrete malformed command in the long queue. -/
theorem setColor_malformed_no_mutation_witness :
    processLongActionsStep (fun _ => ParseResult.err)
      [{ callback := some Handler.setColorH, data := [123], length := 5 }]
      true { r := 1, g := 1, b := 1 } = ([], { r := 1, g := 1, b := 1 }, []) :=
  (setColor_malformed_no_mutation (fun _ => ParseResult.err) [123] 5 true
    { r := 1, g := 1, b := 1 } [] rfl).2.2

/-- C6: when the first three connect attempts fail, the connection
procedure produces exactly three connect attempts, each failed attempt
followed by the fixed 5 second backoff sleep, and then enters the terminal
halt state; the trace ends at the halt, so no further connect attempt
occurs afterward. The retry budget starts at 3 and is decremented once per
failure in the loop. -/
theorem mqttConnect_retry_exhaustion (o : Nat → Bool)
    (h0 : o 0 = false) (h1 : o 1 = false) (h2 : o 2 = false) :
    mqttConnect false o =
      ([ConnEvent.suspendShort, ConnEvent.suspendLong,
        ConnEvent.connectAttempt false, ConnEvent.backoffSleep,
        ConnEvent.connectAttempt false, ConnEvent.backoffSleep,
        ConnEvent.connectAttempt false, ConnEvent.backoffSleep,
        ConnEvent.halt], true) := by
  simp [mqttConnect, connectLoop, h0, h1, h2]

/-- C6 applied to three consecutive connect failures. -/
theorem mqttConnect_retry_exhaustion_witness :
    mqttConnect false (fun _ => false) =
      ([ConnEvent.suspendShort, ConnEvent.suspendLong,
        ConnEvent.connectAttempt false, ConnEvent.backoffSleep,
        ConnEvent.connectAttempt false, ConnEvent.backoffSleep,
        ConnEvent.connectAttempt false, ConnEvent.backoffSleep,
        ConnEvent.halt], true) :=
  mqttConnect_retry_exhaustion (fun _ => false) rfl rfl rfl

/-- C7: the connection procedure is a no-op when the transport is already
connected; otherwise its complete trace, in every case of the first three
attempt outcomes, suspends both workers before the first connect attempt
and emits the resume events (followed by the settle sleep) only after a
successful attempt — every connect attempt lies strictly between the two
suspends and any resume, so neither worker runs during an attempt. -/
theorem mqttConnect_worker_isolation (o : Nat → Bool) :
    mqttConnect true o = ([], false) ∧
    (o 0 = true →
      mqttConnect false o =
        ([ConnEvent.suspendShort, ConnEvent.suspendLong, ConnEvent.connectAttempt true,
          ConnEvent.resumeShort, ConnEvent.resumeLong, ConnEvent.settleSleep], false)) ∧
    (o 0 = false → o 1 = true →
      mqttConnect false o =
        ([ConnEvent.suspendShort, ConnEvent.suspendLong,
          ConnEvent.connectAttempt false, ConnEvent.backoffSleep,
          ConnEvent.connectAttempt true,
          ConnEvent.resumeShort, ConnEvent.resumeLong, ConnEvent.settleSleep], false)) ∧
    (o 0 = false → o 1 = false → o 2 = true →
      mqttConnect false o =
        ([ConnEvent.suspendShort, ConnEvent.suspendLong,
          ConnEvent.connectAttempt false, ConnEvent.backoffSleep,
          ConnEvent.connectAttempt false, ConnEvent.backoffSleep,
          ConnEvent.connectAttempt true,
          ConnEvent.resumeShort, ConnEvent.resumeLong, ConnEvent.settleSleep], false)) ∧
    (o 0 = false → o 1 = false → o 2 = false →
      mqttConnect false o =
        ([ConnEvent.suspendShort, ConnEvent.suspendLong,
          ConnEvent.connectAttempt false, ConnEvent.backoffSleep,
          ConnEvent.connectAttempt false, ConnEvent.backoffSleep,
          ConnEvent.connectAttempt false, ConnEvent.backoffSleep,
          ConnEvent.halt], true)) := by
  refine ⟨by simp [mqttConnect], ?_, ?_, ?_, ?_⟩ <;> intros <;>
    simp [mqttConnect, connectLoop, *]

/-- C7 applied at an immediately successful connect. -/
theorem mqttConnect_worker_isolation_witness :
    mqttConnect false (fun _ => true) =
      ([ConnEvent.suspendShort, ConnEvent.suspendLong, ConnEvent.connectAttempt true,
        ConnEvent.resumeShort, ConnEvent.resumeLong, ConnEvent.settleSleep], false) :=
  (mqttConnect_worker_isolation (fun _ => true)).2.1 rfl

/-- C8: an event from any subscription identity outside the recognized set
always classifies to an empty envelope (its callback is NULL), and the
listener step for such an event leaves both queues unchanged — the
envelope is never enqueued. -/
theorem classification_totality (n : Nat) (payload : List Nat) (qs : Queues) :
    (setAction { sub := SubId.other n, payload := payload }).callback = none ∧
    processInputStep qs { sub := SubId.other n, payload := payload } = qs :=
  ⟨rfl, rfl⟩

/-- C8 applied at a concrete unrecognized identity. -/
theorem classification_totality_witness :
    (setAction { sub := SubId.other 7, payload := [1, 2, 3] }).callback = none :=
  (classification_totality 7 [1, 2, 3] { shortQ := [], longQ := [] }).1

/-- C9: the wraparound guard in the listener's elapsed accounting — when
the fresh clock sample is below the recorded start sample, the start is
reset to the fresh sample and the elapsed accumulator is incremented by
zero; otherwise the increment is the true difference now minus startTime,
never a wrapped-around huge unsigned value. -/
theorem elapsedStep_wraparound_guard (s e now : Nat)
    (hs : s < UINT32MOD) (he : e < UINT32MOD) (hn : now < UINT32MOD) :
    (now < s → elapsedStep s e now = (now, e)) ∧
    (s ≤ now → elapsedStep s e now = (s, (e + (now - s)) % UINT32MOD)) := by
  constructor <;> intro h
  · have h1 : now + UINT32MOD - now = UINT32MOD := by omega
    simp [elapsedStep, h, h1, Nat.mod_self, Nat.mod_eq_of_lt he]
  · have h2 : ¬ now < s := not_lt.mpr h
    have h3 : (now + UINT32MOD - s) % UINT32MOD = now - s := by
      have h4 : now + UINT32MOD - s = (now - s) + UINT32MOD := by omega
      rw [h4, Nat.add_mod_right]
      exact Nat.mod_eq_of_lt (by omega)
    simp [elapsedStep, h2, h3]

/-- C9 applied at a concrete wrapped clock sample. -/
theorem elapsedStep_wraparound_guard_witness :
    elapsedStep 1000 7 5 = (5, 7) :=
  (elapsedStep_wraparound_guard 1000 7 5 (by decide) (by decide) (by decide)).1 (by decide)

/-- C10: a command payload that fails to deserialize produces no status
publish at all, while a parseable, size-bounded command skipped by lock
contention still publishes one status message — malformed commands, unlike
contention-skipped ones, leave the outbound channel silent. -/
theorem setColor_malformed_no_status (parse : List Nat → ParseResult)
    (data data2 : List Nat) (len len2 r g b t : Nat) (lockFree : Bool) (st : RGB)
    (hp : parse data = ParseResult.err)
    (hlen2 : len2 ≤ SUBSCRIPTIONDATALEN) (hp2 : parse data2 = ParseResult.ok r g b t) :
    (setColor parse data len lockFree st).publishes = [] ∧
    (setColor parse data2 len2 false st).publishes
      = [{ r := st.r, g := st.g, b := st.b }] := by
  have hlen2' : ¬ SUBSCRIPTIONDATALEN < len2 := not_lt.mpr hlen2
  constructor
  · by_cases h : SUBSCRIPTIONDATALEN < len <;> simp [setColor, h, hp]
  · simp [setColor, hlen2', hp2, publishRgbStatus]

/-- C10 applied at a concrete malformed command. -/
theorem setColor_malformed_no_status_witness :
    (setColor (fun d => if d = [1] then ParseResult.ok 1 2 3 0 else ParseResult.err)
      [] 0 true { r := 8, g := 8, b := 8 }).publishes = [] :=
  (setColor_malformed_no_status
    (fun d => if d = [1] then ParseResult.ok 1 2 3 0 else ParseResult.err)
    [] [1] 0 0 1 2 3 0 true { r := 8, g := 8, b := 8 }
    (by decide) (by decide) (by decide)).1

end MqttRgbDino
